import Mathlib

/-!
Shallow embedding of the SQLCipher-WASM binding layer
(`lib/sqlite-api.cjs` of the repository) and proofs about the
claims the natural-language specification makes about it.

The JavaScript binding drives a C-ABI SQLite engine compiled to WASM.
We model:

* the host-side allocator (`allocateUTF8` / `_malloc` / `_free`) as an
  explicit `HostMem` state holding the multiset of live pointers;
* the engine as an abstract behavior record `Engine` supplying the
  status codes, handles and memory contents the WASM module would
  return (theorems quantify over these, so they cover every engine
  response);
* every call across the ABI boundary as an `EngineCall` value; each
  embedded operation returns, besides its result, the ordered trace of
  ABI calls it performed, so claims about "exactly one finalize",
  "no type-tag read", destructor arguments, and so on are statements
  about this trace;
* JavaScript values crossing the boundary as the tagged type `JSVal`
  (JS `null` and `undefined`, numbers split by `Number.isInteger`,
  strings, typed arrays, booleans); non-integer numbers carry an
  opaque payload since no claim needs real-number arithmetic;
* JavaScript exceptions as `Except String` carrying the thrown
  `Error`'s message string, exactly as the source builds it.

`try`/`finally` blocks of the source are translated by sequencing the
`finally` actions explicitly on every branch, in source order.
-/

/-- SQLite status code `SQLITE_OK` (`sqlite-api.cjs` line 5). -/
def SQLITE_OK : Int := 0

/-- SQLite status code `SQLITE_ROW` (`sqlite-api.cjs` line 6). -/
def SQLITE_ROW : Int := 100

/-- SQLite status code `SQLITE_DONE` (`sqlite-api.cjs` line 7). -/
def SQLITE_DONE : Int := 101

/-- SQLite runtime type tag for integer values (`SQLITE_INTEGER`). -/
def SQLITE_INTEGER : Int := 1

/-- SQLite runtime type tag for floating-point values (`SQLITE_FLOAT`). -/
def SQLITE_FLOAT : Int := 2

/-- SQLite runtime type tag for text values (`SQLITE_TEXT`). -/
def SQLITE_TEXT : Int := 3

/-- SQLite runtime type tag for blob values (`SQLITE_BLOB`). -/
def SQLITE_BLOB : Int := 4

/-- SQLite runtime type tag for NULL values (`SQLITE_NULL`). -/
def SQLITE_NULL : Int := 5

/-- The special destructor argument `SQLITE_TRANSIENT` of the SQLite
bind API: passing it makes the engine take its own private copy of a
bound text/blob.  As a C pointer constant it is `(void*)-1`; the value
`0` is `SQLITE_STATIC` (no copy, caller keeps the buffer alive). -/
def SQLITE_TRANSIENT : Int := -1

/-- A JavaScript value as the binding sees it: the dispatch in
`bindParameters` distinguishes `null`/`undefined`, numbers (split by
`Number.isInteger`), strings, and everything else (`typeof` is used
only to build the error message).  `jsReal` carries an opaque payload
standing for a non-integer JS number; `jsBlob` stands for a typed
array (`typeof` = "object"); `jsBool` for a boolean. -/
inductive JSVal where
  | jsNull
  | jsUndefined
  | jsInt (n : Int)
  | jsReal (x : Int)
  | jsStr (s : String)
  | jsBlob (bytes : List Nat)
  | jsBool (b : Bool)
deriving DecidableEq

/-- The JavaScript `typeof` operator restricted to the values of
`JSVal` (used verbatim in the error message of `bindParameters`). -/
def typeofJS : JSVal → String
  | .jsNull => "object"
  | .jsUndefined => "undefined"
  | .jsInt _ => "number"
  | .jsReal _ => "number"
  | .jsStr _ => "string"
  | .jsBlob _ => "object"
  | .jsBool _ => "boolean"

/-- One call across the ABI boundary, in the order the binding issues
them.  Host-side allocator calls record the produced pointer (and the
written string for `allocateUTF8`); engine calls record the arguments
the binding passes. -/
inductive EngineCall where
  | allocUTF8 (ptr : Nat) (s : String)
  | malloc (ptr : Nat) (size : Nat)
  | free (ptr : Nat)
  | sqlite3_open (filenamePtr : Nat) (dbPtrPtr : Nat)
  | sqlite3_exec (db : Nat) (sqlPtr : Nat) (sql : String)
  | sqlite3_prepare_v2 (db : Nat) (sqlPtr : Nat) (stmtPtr : Nat)
  | sqlite3_column_count (stmt : Nat)
  | sqlite3_column_name (stmt : Nat) (col : Nat)
  | sqlite3_column_type (stmt : Nat) (col : Nat)
  | sqlite3_step (stmt : Nat)
  | sqlite3_column_text (stmt : Nat) (col : Nat)
  | sqlite3_bind_int (stmt : Nat) (idx : Nat) (v : Int)
  | sqlite3_bind_int64 (stmt : Nat) (idx : Nat) (v : Int)
  | sqlite3_bind_double (stmt : Nat) (idx : Nat) (x : Int)
  | sqlite3_bind_text (stmt : Nat) (idx : Nat) (strPtr : Nat) (len : Int) (destructor : Int)
  | sqlite3_finalize (stmt : Nat)
  | sqlite3_close (db : Nat)
  | sqlite3_errmsg (db : Nat)
  | sqlite3_changes (db : Nat)
deriving DecidableEq

/-- Host-side view of the WASM linear-memory allocator: a fresh-pointer
counter and the list of currently live (allocated, not yet freed)
pointers.  Pointers start at 1 so a produced pointer is never the null
address 0. -/
structure HostMem where
  nextPtr : Nat
  live : List Nat
deriving DecidableEq

/-- Allocate a fresh pointer (models both `allocateUTF8` and `_malloc`;
the two are distinguished in the call trace). -/
def HostMem.alloc (m : HostMem) : Nat × HostMem :=
  (m.nextPtr, ⟨m.nextPtr + 1, m.nextPtr :: m.live⟩)

/-- Release a pointer (models `_free`). -/
def HostMem.release (m : HostMem) (p : Nat) : HostMem :=
  ⟨m.nextPtr, m.live.erase p⟩

/-- The initial allocator state: nothing allocated. -/
def mem0 : HostMem := ⟨1, []⟩

/-- Abstract behavior of the engine (the compiled SQLite/SQLCipher
library behind the ABI) and of the module's memory views: for each
entry point the binding calls, the value the engine would return.
Theorems quantify over this record, so they hold for every engine
response.  `stepCodes` lists the successive return values of
`sqlite3_step`; once exhausted the engine answers `SQLITE_DONE`.
`colTextPtr r c` is the pointer `sqlite3_column_text` returns for
column `c` while the row produced by the `r`-th successful step is
current; `columnType r c` is the runtime type tag
`sqlite3_column_type` would report there (the binding never asks for
it — that is exactly what some claims are about).  `bindStatus` and
`paramCount` describe the engine's view of parameter binding; the
binding ignores the status. -/
structure Engine where
  openStatus : Int
  dbHandle : Nat
  execStatus : String → Int
  execErrPtr : String → Nat
  utf8At : Nat → String
  prepareStatus : String → Int
  stmtOf : String → Nat
  columnCount : Nat → Nat
  columnNamePtr : Nat → Nat → Nat
  columnType : Nat → Nat → Int
  stepCodes : List Int
  colTextPtr : Nat → Nat → Nat
  bindStatus : Nat → Int
  paramCount : Nat → Nat
  errmsgPtr : Nat → Nat
  changesCount : Int

/-- Emscripten's `UTF8ToString`: decoding from the null address yields
the empty string, otherwise the bytes at the address. -/
def UTF8ToString (e : Engine) (p : Nat) : String :=
  if p = 0 then "" else e.utf8At p

/-- Coercion of a JS number to a C `int` argument at the WASM boundary
(the ABI of `sqlite3_bind_int` takes a 32-bit signed integer): the
value is wrapped into the 32-bit signed range. -/
def toInt32 (n : Int) : Int :=
  (n + 2147483648) % 4294967296 - 2147483648

/-- The single-quote character, built from its code point. -/
def quoteChar : Char := Char.ofNat 39

/-- A one-character string holding a single quote. -/
def squote : String := String.singleton quoteChar

/-- The JavaScript `key.replace(/.../g, ...)` used by `setKey` and
`rekey`: every single-quote character in the key is doubled. -/
def escapeQuotes (k : String) : String :=
  String.mk (k.data.foldr
    (fun ch acc => if ch = quoteChar then quoteChar :: quoteChar :: acc else ch :: acc) [])

/-- The SQL text `setKey` executes (source line 25). -/
def keyPragma (key : String) : String :=
  "PRAGMA key = " ++ squote ++ escapeQuotes key ++ squote

/-- The SQL text `rekey` executes (source line 37). -/
def rekeyPragma (newKey : String) : String :=
  "PRAGMA rekey = " ++ squote ++ escapeQuotes newKey ++ squote

/-- A result row: the JS object `row` built by `query`, as the ordered
list of (column name, decoded value) entries in column order. -/
abbrev Row := List (String × JSVal)

namespace SQLiteDatabase

/-- Embedding of `SQLiteDatabase.getErrorMessage` (source lines
175-178).  The method reads `sqlite3_errmsg` on the connection and
decodes it, falling back to a fixed message on a null pointer.  The
source never consults `this.closed` here, hence the `closed` argument
is ignored. -/
def getErrorMessage (e : Engine) (db : Nat) (closed : Bool) : String × List EngineCall :=
  let errPtr := e.errmsgPtr db
  (if errPtr = 0 then "Unknown error" else e.utf8At errPtr, [EngineCall.sqlite3_errmsg db])

/-- Embedding of `SQLiteDatabase.getChanges` (source lines 183-185):
it calls `sqlite3_changes` directly; the source has no `this.closed`
check in this method, hence the `closed` argument is ignored. -/
def getChanges (e : Engine) (db : Nat) (closed : Bool) : Int × List EngineCall :=
  (e.changesCount, [EngineCall.sqlite3_changes db])

/-- Embedding of `SQLiteDatabase.close` (source lines 190-195):
returns the new `closed` flag and the trace.  An already-closed
database returns immediately without calling the engine. -/
def close (db : Nat) (closed : Bool) : Bool × List EngineCall :=
  if closed then (closed, []) else (true, [EngineCall.sqlite3_close db])

/-- Embedding of `SQLiteDatabase.exec` (source lines 43-69).  The SQL
is written to a scoped buffer, a 4-byte out-parameter cell is
allocated for the error-message pointer, `sqlite3_exec` is called, and
on a non-OK status the engine-written message is decoded and thrown as
`SQLite error: ...`.  Both host allocations are freed on both paths
(the engine-allocated message itself is never freed — as in the
source). -/
def exec (e : Engine) (db : Nat) (closed : Bool) (sql : String) (m : HostMem) :
    Except String Unit × HostMem × List EngineCall :=
  if closed then (.error "Database is closed", m, [])
  else
    let a1 := m.alloc
    let sqlPtr := a1.1
    let a2 := a1.2.alloc
    let errMsgPtr := a2.1
    let tr0 : List EngineCall :=
      [EngineCall.allocUTF8 sqlPtr sql, EngineCall.malloc errMsgPtr 4,
        EngineCall.sqlite3_exec db sqlPtr sql]
    let mOut := (a2.2.release errMsgPtr).release sqlPtr
    let trOut := tr0 ++ [EngineCall.free errMsgPtr, EngineCall.free sqlPtr]
    if e.execStatus sql = SQLITE_OK then
      (.ok (), mOut, trOut)
    else
      let errPtr := e.execErrPtr sql
      let errMsg := if errPtr = 0 then "Unknown error" else e.utf8At errPtr
      (.error ("SQLite error: " ++ errMsg), mOut, trOut)

/-- Embedding of `SQLiteDatabase.setKey` (source lines 20-29): after
the closed check, it executes the keying pragma through `exec` and
wraps any thrown message. -/
def setKey (e : Engine) (db : Nat) (closed : Bool) (key : String) (m : HostMem) :
    Except String Unit × HostMem × List EngineCall :=
  if closed then (.error "Database is closed", m, [])
  else
    let r := exec e db closed (keyPragma key) m
    match r.1 with
    | .ok _ => (.ok (), r.2.1, r.2.2)
    | .error msg => (.error ("Failed to set encryption key: " ++ msg), r.2.1, r.2.2)

/-- Embedding of `SQLiteDatabase.rekey` (source lines 35-38). -/
def rekey (e : Engine) (db : Nat) (closed : Bool) (newKey : String) (m : HostMem) :
    Except String Unit × HostMem × List EngineCall :=
  if closed then (.error "Database is closed", m, [])
  else exec e db closed (rekeyPragma newKey) m

/-- Embedding of the loop body of `SQLiteDatabase.bindParameters`
(source lines 147-170), recursing over the remaining parameters with
`i` the JS loop counter (the SQLite index is `i + 1`).  `null` and
`undefined` are skipped; integers go through `sqlite3_bind_int` with
the value wrapped at the 32-bit ABI boundary; non-integer numbers
through `sqlite3_bind_double`; strings are written to a freshly
allocated buffer that is never freed (the source comments: "we're
leaking strPtr here for simplicity") and bound with length `-1` and
destructor `0`; anything else throws.  The return status of every
bind call is ignored, as in the source. -/
def bindLoop (e : Engine) (stmt : Nat) :
    List JSVal → Nat → HostMem → Except String Unit × HostMem × List EngineCall
  | [], _, m => (.ok (), m, [])
  | p :: rest, i, m =>
    match p with
    | .jsNull => bindLoop e stmt rest (i + 1) m
    | .jsUndefined => bindLoop e stmt rest (i + 1) m
    | .jsInt n =>
      let r0 := bindLoop e stmt rest (i + 1) m
      (r0.1, r0.2.1, EngineCall.sqlite3_bind_int stmt (i + 1) (toInt32 n) :: r0.2.2)
    | .jsReal x =>
      let r0 := bindLoop e stmt rest (i + 1) m
      (r0.1, r0.2.1, EngineCall.sqlite3_bind_double stmt (i + 1) x :: r0.2.2)
    | .jsStr s =>
      let a := m.alloc
      let r0 := bindLoop e stmt rest (i + 1) a.2
      (r0.1, r0.2.1,
        EngineCall.allocUTF8 a.1 s ::
          EngineCall.sqlite3_bind_text stmt (i + 1) a.1 (-1) 0 :: r0.2.2)
    | .jsBlob bs => (.error ("Unsupported parameter type: " ++ typeofJS (.jsBlob bs)), m, [])
    | .jsBool b => (.error ("Unsupported parameter type: " ++ typeofJS (.jsBool b)), m, [])

/-- Embedding of `SQLiteDatabase.bindParameters` (source lines
147-170): the loop starts at JS index 0. -/
def bindParameters (e : Engine) (stmt : Nat) (params : List JSVal) (m : HostMem) :
    Except String Unit × HostMem × List EngineCall :=
  bindLoop e stmt params 0 m

/-- Decoding of one column of the current row in `query` (source lines
128-129): the binding calls `sqlite3_column_text` and turns a null
pointer into JS `null`, anything else into the decoded string.  `r` is
the index of the current row (the number of previous successful
steps). -/
def decodeCell (e : Engine) (r col : Nat) : JSVal :=
  let valuePtr := e.colTextPtr r col
  if valuePtr = 0 then .jsNull else .jsStr (e.utf8At valuePtr)

/-- The row object built by `query` for the `r`-th produced row
(source lines 126-131): one (name, value) entry per column index. -/
def decodeRow (e : Engine) (cols : List String) (cc r : Nat) : Row :=
  (List.range cc).map (fun col => (cols.getD col "", decodeCell e r col))

/-- Embedding of the `while (true)` step loop of `query` (source lines
113-132), recursing over the engine's successive `sqlite3_step`
return codes; when the list is exhausted the engine answers
`SQLITE_DONE`.  `r` counts the rows produced so far and `acc`
accumulates them in order. -/
def stepLoop (e : Engine) (db stmt cc : Nat) (cols : List String) :
    List Int → Nat → List Row → Except String (List Row) × List EngineCall
  | [], _, acc => (.ok acc, [EngineCall.sqlite3_step stmt])
  | code :: rest, r, acc =>
    if code = SQLITE_DONE then (.ok acc, [EngineCall.sqlite3_step stmt])
    else if code = SQLITE_ROW then
      let r0 := stepLoop e db stmt cc cols rest (r + 1) (acc ++ [decodeRow e cols cc r])
      (r0.1,
        EngineCall.sqlite3_step stmt ::
          ((List.range cc).map (fun col => EngineCall.sqlite3_column_text stmt col) ++ r0.2))
    else
      (.error ("Step failed: " ++ (getErrorMessage e db false).1),
        EngineCall.sqlite3_step stmt :: (getErrorMessage e db false).2)

/-- The column-name list `query` builds before the step loop (source
lines 105-110): one decoded name per column index. -/
def queryCols (e : Engine) (stmt : Nat) : List String :=
  (List.range (e.columnCount stmt)).map (fun i => UTF8ToString e (e.columnNamePtr stmt i))

/-- Embedding of the inner `try { ... } finally { finalize }` block of
`query` (source lines 100-137), entered once a non-null statement
handle has been obtained: bind the parameters, read the column count
and names, run the step loop, and in every case finalize the statement
as the last engine call of the block. -/
def runPrepared (e : Engine) (db stmt : Nat) (params : List JSVal) (m : HostMem) :
    Except String (List Row) × HostMem × List EngineCall :=
  let bp := bindParameters e stmt params m
  match bp.1 with
  | .error msg => (.error msg, bp.2.1, bp.2.2 ++ [EngineCall.sqlite3_finalize stmt])
  | .ok _ =>
    let cc := e.columnCount stmt
    let sl := stepLoop e db stmt cc (queryCols e stmt) e.stepCodes 0 []
    (sl.1, bp.2.1,
      bp.2.2 ++
        (EngineCall.sqlite3_column_count stmt ::
          (List.range cc).map (fun i => EngineCall.sqlite3_column_name stmt i)) ++
        sl.2 ++ [EngineCall.sqlite3_finalize stmt])

/-- Embedding of `SQLiteDatabase.query` (source lines 74-142).  After
the closed check, the SQL buffer and the statement out-cell are
allocated; `sqlite3_prepare_v2` is called; a non-OK status or a null
statement handle throws (with no finalize, since the inner `try` has
not been entered); otherwise the inner block runs.  The outer
`finally` frees the statement cell and then the SQL buffer on every
path. -/
def query (e : Engine) (db : Nat) (closed : Bool) (sql : String) (params : List JSVal)
    (m : HostMem) : Except String (List Row) × HostMem × List EngineCall :=
  if closed then (.error "Database is closed", m, [])
  else
    let a1 := m.alloc
    let sqlPtr := a1.1
    let a2 := a1.2.alloc
    let stmtPtr := a2.1
    let trPre : List EngineCall :=
      [EngineCall.allocUTF8 sqlPtr sql, EngineCall.malloc stmtPtr 4,
        EngineCall.sqlite3_prepare_v2 db sqlPtr stmtPtr]
    let trFin : List EngineCall := [EngineCall.free stmtPtr, EngineCall.free sqlPtr]
    if e.prepareStatus sql = SQLITE_OK then
      if e.stmtOf sql = 0 then
        (.error "Failed to prepare statement: null statement",
          (a2.2.release stmtPtr).release sqlPtr, trPre ++ trFin)
      else
        let inner := runPrepared e db (e.stmtOf sql) params a2.2
        (inner.1, (inner.2.1.release stmtPtr).release sqlPtr, trPre ++ inner.2.2 ++ trFin)
    else
      (.error ("Failed to prepare statement: " ++ (getErrorMessage e db closed).1),
        (a2.2.release stmtPtr).release sqlPtr,
        trPre ++ (getErrorMessage e db closed).2 ++ trFin)

end SQLiteDatabase

namespace SQLiteAPI

/-- JavaScript truthiness of the `key` argument of `open` (default
`null`): `null` is falsy and so is the empty string. -/
def jsTruthy : Option String → Bool
  | none => false
  | some s => !(s == "")

/-- Embedding of `SQLiteAPI.open` (source lines 208-236; named
`openDb` because `open` is a Lean keyword).  The filename buffer and
the handle out-cell are allocated, `sqlite3_open` is called, the
handle is read back, and — when the `key` argument is truthy —
`setKey` runs on the new database before it is returned.  The
`finally` frees the out-cell and then the filename buffer on every
path.  On success the result is the new database: its handle and its
`closed` flag (`false`). -/
def openDb (e : Engine) (filename : String) (key : Option String) (m : HostMem) :
    Except String (Nat × Bool) × HostMem × List EngineCall :=
  let a1 := m.alloc
  let filenamePtr := a1.1
  let a2 := a1.2.alloc
  let dbPtrPtr := a2.1
  let trPre : List EngineCall :=
    [EngineCall.allocUTF8 filenamePtr filename, EngineCall.malloc dbPtrPtr 4,
      EngineCall.sqlite3_open filenamePtr dbPtrPtr]
  let trFin : List EngineCall := [EngineCall.free dbPtrPtr, EngineCall.free filenamePtr]
  if e.openStatus = SQLITE_OK then
    if e.dbHandle = 0 then
      (.error "Failed to open database: null pointer",
        (a2.2.release dbPtrPtr).release filenamePtr, trPre ++ trFin)
    else
      if jsTruthy key then
        let sk := SQLiteDatabase.setKey e e.dbHandle false (key.getD "") a2.2
        match sk.1 with
        | .ok _ =>
          (.ok (e.dbHandle, false), (sk.2.1.release dbPtrPtr).release filenamePtr,
            trPre ++ sk.2.2 ++ trFin)
        | .error msg =>
          (.error msg, (sk.2.1.release dbPtrPtr).release filenamePtr,
            trPre ++ sk.2.2 ++ trFin)
      else
        (.ok (e.dbHandle, false), (a2.2.release dbPtrPtr).release filenamePtr,
          trPre ++ trFin)
  else
    (.error ("Failed to open database: " ++ toString e.openStatus),
      (a2.2.release dbPtrPtr).release filenamePtr, trPre ++ trFin)

end SQLiteAPI

/-- Recognizes a `sqlite3_finalize` call on the given statement
handle. -/
def isFinalizeOf (stmt : Nat) : EngineCall → Bool
  | .sqlite3_finalize s => s == stmt
  | _ => false

/-- Recognizes a `sqlite3_column_type` call (the engine's runtime
type-tag read). -/
def isColumnTypeCall : EngineCall → Bool
  | .sqlite3_column_type _ _ => true
  | _ => false

/-- Recognizes a `sqlite3_bind_int64` call (the 64-bit integer bind
entry point). -/
def isBindInt64Call : EngineCall → Bool
  | .sqlite3_bind_int64 _ _ _ => true
  | _ => false

/-- Recognizes a `sqlite3_exec` call. -/
def isExecCall : EngineCall → Bool
  | .sqlite3_exec _ _ _ => true
  | _ => false

/-- True exactly for the host values `query` can place in a result
row: a decoded string or JS `null`. -/
def cellTextOrNull : JSVal → Bool
  | .jsNull => true
  | .jsStr _ => true
  | _ => false

/-- The parameter values `bindParameters` accepts without throwing:
`null`, `undefined`, numbers and strings. -/
def supportedParam : JSVal → Bool
  | .jsBlob _ => false
  | .jsBool _ => false
  | _ => true

/-- The 1-based parameter index carried by a bind call, if any. -/
def bindIdx : EngineCall → Option Nat
  | .sqlite3_bind_int _ idx _ => some idx
  | .sqlite3_bind_int64 _ idx _ => some idx
  | .sqlite3_bind_double _ idx _ => some idx
  | .sqlite3_bind_text _ idx _ _ _ => some idx
  | _ => none

/-- The engine type tag a host value corresponds to (the engine's
`SQLITE_INTEGER`/`FLOAT`/`TEXT`/`BLOB`/`NULL` numbering; values that
have no engine counterpart map to 0). -/
def jsTag : JSVal → Int
  | .jsInt _ => SQLITE_INTEGER
  | .jsReal _ => SQLITE_FLOAT
  | .jsStr _ => SQLITE_TEXT
  | .jsBlob _ => SQLITE_BLOB
  | .jsNull => SQLITE_NULL
  | .jsUndefined => 0
  | .jsBool _ => 0

/-- Number of rows the step loop will produce from a list of step
return codes: the leading run of `SQLITE_ROW` answers. -/
def rowsProduced : List Int → Nat
  | [] => 0
  | code :: rest =>
    if code = SQLITE_DONE then 0
    else if code = SQLITE_ROW then rowsProduced rest + 1
    else 0

/-- A concrete engine behavior used for counterexamples and witnesses:
opening succeeds with handle 7; every exec succeeds; every prepare
succeeds with statement handle 9; the statement has one column whose
name (at address 50) is "c"; one parameter slot, with the engine
rejecting binds beyond index 1 (status 25, `SQLITE_RANGE`); stepping
yields one row then `SQLITE_DONE`; in that row the column's runtime
type tag is `SQLITE_INTEGER` and its text representation (at address
100) is "7". -/
def engRun : Engine where
  openStatus := 0
  dbHandle := 7
  execStatus := fun _ => 0
  execErrPtr := fun _ => 0
  utf8At := fun p => if p = 50 then "c" else if p = 100 then "7" else ""
  prepareStatus := fun _ => 0
  stmtOf := fun _ => 9
  columnCount := fun _ => 1
  columnNamePtr := fun _ _ => 50
  columnType := fun _ _ => SQLITE_INTEGER
  stepCodes := [SQLITE_ROW, SQLITE_DONE]
  colTextPtr := fun r col => if r = 0 ∧ col = 0 then 100 else 0
  bindStatus := fun idx => if idx ≤ 1 then 0 else 25
  paramCount := fun _ => 1
  errmsgPtr := fun _ => 0
  changesCount := 2

/-- Looking up an index below `n` in `(List.range n).map f` yields the
function applied at the index. -/
theorem getD_map_range {α : Type} (f : Nat → α) (n k : Nat) (d : α) (h : k < n) :
    ((List.range n).map f).getD k d = f k := by
  rw [List.getD_eq_getElem?_getD, List.getElem?_map, List.getElem?_range h]
  rfl

/-- The 32-bit ABI wrap is the identity on values already inside the
32-bit signed range. -/
theorem toInt32_eq_self (n : Int) (h1 : -2147483648 ≤ n) (h2 : n < 2147483648) :
    toInt32 n = n := by
  unfold toInt32
  omega

/-- Every call the bind loop issues is a string-buffer allocation or a
bind call on the given statement; text binds always carry length `-1`
and destructor `0`. -/
theorem bindLoop_trace_mem (e : Engine) (stmt : Nat) :
    ∀ (params : List JSVal) (i : Nat) (m : HostMem) (c : EngineCall),
      c ∈ (SQLiteDatabase.bindLoop e stmt params i m).2.2 →
      (∃ p s, c = EngineCall.allocUTF8 p s) ∨
      (∃ idx v, c = EngineCall.sqlite3_bind_int stmt idx v) ∨
      (∃ idx x, c = EngineCall.sqlite3_bind_double stmt idx x) ∨
      (∃ idx p, c = EngineCall.sqlite3_bind_text stmt idx p (-1) 0) := by
  intro params
  induction params with
  | nil => intro i m c hc; simp [SQLiteDatabase.bindLoop] at hc
  | cons p rest ih =>
    intro i m c hc
    cases p with
    | jsNull => exact ih (i + 1) m c hc
    | jsUndefined => exact ih (i + 1) m c hc
    | jsInt n =>
      simp only [SQLiteDatabase.bindLoop, List.mem_cons] at hc
      rcases hc with rfl | hc
      · exact Or.inr (Or.inl ⟨i + 1, toInt32 n, rfl⟩)
      · exact ih (i + 1) m c hc
    | jsReal x =>
      simp only [SQLiteDatabase.bindLoop, List.mem_cons] at hc
      rcases hc with rfl | hc
      · exact Or.inr (Or.inr (Or.inl ⟨i + 1, x, rfl⟩))
      · exact ih (i + 1) m c hc
    | jsStr s =>
      simp only [SQLiteDatabase.bindLoop, List.mem_cons] at hc
      rcases hc with rfl | rfl | hc
      · exact Or.inl ⟨m.nextPtr, s, rfl⟩
      · exact Or.inr (Or.inr (Or.inr ⟨i + 1, m.nextPtr, rfl⟩))
      · exact ih (i + 1) m.alloc.2 c hc
    | jsBlob bs => simp [SQLiteDatabase.bindLoop] at hc
    | jsBool b => simp [SQLiteDatabase.bindLoop] at hc

/-- The bind loop never frees: every pointer live before it stays live
after it. -/
theorem bindLoop_live_mono (e : Engine) (stmt : Nat) :
    ∀ (params : List JSVal) (i : Nat) (m : HostMem) (q : Nat),
      q ∈ m.live → q ∈ (SQLiteDatabase.bindLoop e stmt params i m).2.1.live := by
  intro params
  induction params with
  | nil => intro i m q hq; simpa [SQLiteDatabase.bindLoop] using hq
  | cons p rest ih =>
    intro i m q hq
    cases p with
    | jsNull => exact ih (i + 1) m q hq
    | jsUndefined => exact ih (i + 1) m q hq
    | jsInt n => exact ih (i + 1) m q hq
    | jsReal x => exact ih (i + 1) m q hq
    | jsStr s =>
      exact ih (i + 1) m.alloc.2 q (List.mem_cons_of_mem _ hq)
    | jsBlob bs => simpa [SQLiteDatabase.bindLoop] using hq
    | jsBool b => simpa [SQLiteDatabase.bindLoop] using hq

/-- The buffer pointer of every text bind the loop issues is still
live (never freed) in the memory state the loop returns. -/
theorem bindLoop_text_ptr_live (e : Engine) (stmt : Nat) :
    ∀ (params : List JSVal) (i : Nat) (m : HostMem) (s idx ptr : Nat) (len d : Int),
      EngineCall.sqlite3_bind_text s idx ptr len d
          ∈ (SQLiteDatabase.bindLoop e stmt params i m).2.2 →
      ptr ∈ (SQLiteDatabase.bindLoop e stmt params i m).2.1.live := by
  intro params
  induction params with
  | nil => intro i m s idx ptr len d hc; simp [SQLiteDatabase.bindLoop] at hc
  | cons p rest ih =>
    intro i m s idx ptr len d hc
    cases p with
    | jsNull => exact ih (i + 1) m s idx ptr len d hc
    | jsUndefined => exact ih (i + 1) m s idx ptr len d hc
    | jsInt n =>
      simp only [SQLiteDatabase.bindLoop, List.mem_cons] at hc
      rcases hc with hc | hc
      · exact absurd hc (by simp)
      · exact ih (i + 1) m s idx ptr len d hc
    | jsReal x =>
      simp only [SQLiteDatabase.bindLoop, List.mem_cons] at hc
      rcases hc with hc | hc
      · exact absurd hc (by simp)
      · exact ih (i + 1) m s idx ptr len d hc
    | jsStr s2 =>
      simp only [SQLiteDatabase.bindLoop, List.mem_cons] at hc
      rcases hc with hc | hc | hc
      · exact absurd hc (by simp)
      · have hptr : ptr = m.nextPtr := by
          cases hc
          rfl
        subst hptr
        exact bindLoop_live_mono e stmt rest (i + 1) m.alloc.2 _
          (List.mem_cons_self _ _)
      · exact ih (i + 1) m.alloc.2 s idx ptr len d hc
    | jsBlob bs => simp [SQLiteDatabase.bindLoop] at hc
    | jsBool b => simp [SQLiteDatabase.bindLoop] at hc

/-- Every bind call issued by the loop targets a 1-based parameter
index between `i + 1` and `i +` the number of remaining parameters. -/
theorem bindLoop_idx_range (e : Engine) (stmt : Nat) :
    ∀ (params : List JSVal) (i : Nat) (m : HostMem) (c : EngineCall) (j : Nat),
      c ∈ (SQLiteDatabase.bindLoop e stmt params i m).2.2 → bindIdx c = some j →
      i + 1 ≤ j ∧ j ≤ i + params.length := by
  intro params
  induction params with
  | nil => intro i m c j hc hj; simp [SQLiteDatabase.bindLoop] at hc
  | cons p rest ih =>
    intro i m c j hc hj
    cases p with
    | jsNull =>
      have h := ih (i + 1) m c j hc hj
      simp only [List.length_cons]
      omega
    | jsUndefined =>
      have h := ih (i + 1) m c j hc hj
      simp only [List.length_cons]
      omega
    | jsInt n =>
      simp only [SQLiteDatabase.bindLoop, List.mem_cons] at hc
      rcases hc with rfl | hc
      · simp only [bindIdx, Option.some.injEq] at hj
        simp only [List.length_cons]
        omega
      · have h := ih (i + 1) m c j hc hj
        simp only [List.length_cons]
        omega
    | jsReal x =>
      simp only [SQLiteDatabase.bindLoop, List.mem_cons] at hc
      rcases hc with rfl | hc
      · simp only [bindIdx, Option.some.injEq] at hj
        simp only [List.length_cons]
        omega
      · have h := ih (i + 1) m c j hc hj
        simp only [List.length_cons]
        omega
    | jsStr s =>
      simp only [SQLiteDatabase.bindLoop, List.mem_cons] at hc
      rcases hc with rfl | rfl | hc
      · simp [bindIdx] at hj
      · simp only [bindIdx, Option.some.injEq] at hj
        simp only [List.length_cons]
        omega
      · have h := ih (i + 1) m.alloc.2 c j hc hj
        simp only [List.length_cons]
        omega
    | jsBlob bs => simp [SQLiteDatabase.bindLoop] at hc
    | jsBool b => simp [SQLiteDatabase.bindLoop] at hc

/-- The bind loop succeeds on every parameter list made of supported
values (it can only throw on an unsupported value). -/
theorem bindLoop_ok_of_supported (e : Engine) (stmt : Nat) :
    ∀ (params : List JSVal) (i : Nat) (m : HostMem),
      (∀ p ∈ params, supportedParam p = true) →
      (SQLiteDatabase.bindLoop e stmt params i m).1 = .ok () := by
  intro params
  induction params with
  | nil => intro i m hsupp; rfl
  | cons p rest ih =>
    intro i m hsupp
    have hrest : ∀ q ∈ rest, supportedParam q = true := fun q hq =>
      hsupp q (List.mem_cons_of_mem _ hq)
    cases p with
    | jsNull => exact ih (i + 1) m hrest
    | jsUndefined => exact ih (i + 1) m hrest
    | jsInt n => exact ih (i + 1) m hrest
    | jsReal x => exact ih (i + 1) m hrest
    | jsStr s => exact ih (i + 1) m.alloc.2 hrest
    | jsBlob bs => exact absurd (hsupp _ (List.mem_cons_self _ _)) (by simp [supportedParam])
    | jsBool b => exact absurd (hsupp _ (List.mem_cons_self _ _)) (by simp [supportedParam])

/-- When the bind loop succeeds, the integer parameter at JS position
`k` produced a `sqlite3_bind_int` call at SQLite index `i + k + 1`
carrying the 32-bit-wrapped value. -/
theorem bindLoop_int_call_mem (e : Engine) (stmt : Nat) :
    ∀ (params : List JSVal) (i : Nat) (m : HostMem) (k : Nat) (n : Int),
      (SQLiteDatabase.bindLoop e stmt params i m).1 = .ok () →
      params.getD k JSVal.jsNull = JSVal.jsInt n → k < params.length →
      EngineCall.sqlite3_bind_int stmt (i + k + 1) (toInt32 n)
        ∈ (SQLiteDatabase.bindLoop e stmt params i m).2.2 := by
  intro params
  induction params with
  | nil => intro i m k n _ _ hlt; simp at hlt
  | cons p rest ih =>
    intro i m k n hok hget hlt
    cases k with
    | zero =>
      simp only [List.getD_cons_zero] at hget
      subst hget
      simp [SQLiteDatabase.bindLoop]
    | succ k2 =>
      simp only [List.getD_cons_succ] at hget
      have hlt2 : k2 < rest.length := by
        simp only [List.length_cons] at hlt
        omega
      have harith : i + 1 + k2 + 1 = i + (k2 + 1) + 1 := by omega
      cases p with
      | jsNull =>
        have h := ih (i + 1) m k2 n hok hget hlt2
        rw [harith] at h
        exact h
      | jsUndefined =>
        have h := ih (i + 1) m k2 n hok hget hlt2
        rw [harith] at h
        exact h
      | jsInt n2 =>
        have hok2 : (SQLiteDatabase.bindLoop e stmt rest (i + 1) m).1 = .ok () := hok
        have h := ih (i + 1) m k2 n hok2 hget hlt2
        rw [harith] at h
        exact List.mem_cons_of_mem _ h
      | jsReal x =>
        have hok2 : (SQLiteDatabase.bindLoop e stmt rest (i + 1) m).1 = .ok () := hok
        have h := ih (i + 1) m k2 n hok2 hget hlt2
        rw [harith] at h
        exact List.mem_cons_of_mem _ h
      | jsStr s =>
        have hok2 : (SQLiteDatabase.bindLoop e stmt rest (i + 1) m.alloc.2).1 = .ok () := hok
        have h := ih (i + 1) m.alloc.2 k2 n hok2 hget hlt2
        rw [harith] at h
        exact List.mem_cons_of_mem _ (List.mem_cons_of_mem _ h)
      | jsBlob bs => simp [SQLiteDatabase.bindLoop] at hok
      | jsBool b => simp [SQLiteDatabase.bindLoop] at hok

/-- Every call the step loop issues is a step, a column-text read on
the statement, or the error-message lookup on the connection. -/
theorem stepLoop_trace_mem (e : Engine) (db stmt cc : Nat) (cols : List String) :
    ∀ (codes : List Int) (r : Nat) (acc : List Row) (c : EngineCall),
      c ∈ (SQLiteDatabase.stepLoop e db stmt cc cols codes r acc).2 →
      c = EngineCall.sqlite3_step stmt ∨
      (∃ col, c = EngineCall.sqlite3_column_text stmt col) ∨
      c = EngineCall.sqlite3_errmsg db := by
  intro codes
  induction codes with
  | nil =>
    intro r acc c hc
    simp only [SQLiteDatabase.stepLoop, List.mem_singleton] at hc
    exact Or.inl hc
  | cons code rest ih =>
    intro r acc c hc
    by_cases hd : code = SQLITE_DONE
    · simp only [SQLiteDatabase.stepLoop, if_pos hd, List.mem_singleton] at hc
      exact Or.inl hc
    · by_cases hrow : code = SQLITE_ROW
      · simp only [SQLiteDatabase.stepLoop, if_neg hd, if_pos hrow, List.mem_cons,
          List.mem_append, List.mem_map, List.mem_range] at hc
        rcases hc with rfl | ⟨col, _, rfl⟩ | hc
        · exact Or.inl rfl
        · exact Or.inr (Or.inl ⟨col, rfl⟩)
        · exact ih (r + 1) (acc ++ [SQLiteDatabase.decodeRow e cols cc r]) c hc
      · simp only [SQLiteDatabase.stepLoop, if_neg hd, if_neg hrow,
          SQLiteDatabase.getErrorMessage, List.mem_cons, List.not_mem_nil, or_false] at hc
        rcases hc with rfl | rfl
        · exact Or.inl rfl
        · exact Or.inr (Or.inr rfl)

/-- When the step loop returns rows, they are the accumulator followed
by the decoded rows of the leading run of `SQLITE_ROW` answers, in
order. -/
theorem stepLoop_ok_rows (e : Engine) (db stmt cc : Nat) (cols : List String) :
    ∀ (codes : List Int) (r : Nat) (acc rows : List Row),
      (SQLiteDatabase.stepLoop e db stmt cc cols codes r acc).1 = .ok rows →
      rows = acc ++ (List.range (rowsProduced codes)).map
        (fun j => SQLiteDatabase.decodeRow e cols cc (r + j)) := by
  intro codes
  induction codes with
  | nil =>
    intro r acc rows h
    simp only [SQLiteDatabase.stepLoop, Except.ok.injEq] at h
    simp [rowsProduced, ← h]
  | cons code rest ih =>
    intro r acc rows h
    by_cases hd : code = SQLITE_DONE
    · simp only [SQLiteDatabase.stepLoop, if_pos hd, Except.ok.injEq] at h
      simp [rowsProduced, if_pos hd, ← h]
    · by_cases hrow : code = SQLITE_ROW
      · simp only [SQLiteDatabase.stepLoop, if_neg hd, if_pos hrow] at h
        have hrec := ih (r + 1) (acc ++ [SQLiteDatabase.decodeRow e cols cc r]) rows h
        rw [hrec]
        simp only [rowsProduced, if_neg hd, if_pos hrow]
        rw [List.range_succ_eq_map, List.map_cons, List.map_map]
        have hfun :
            ((fun j => SQLiteDatabase.decodeRow e cols cc (r + j)) ∘ Nat.succ)
              = fun j => SQLiteDatabase.decodeRow e cols cc (r + 1 + j) := by
          funext j
          simp only [Function.comp]
          congr 1
          omega
        rw [hfun]
        simp [List.append_assoc]
      · simp [SQLiteDatabase.stepLoop, if_neg hd, if_neg hrow] at h

/-- A list none of whose elements satisfies a predicate has count 0
for it. -/
theorem countP_zero_of_all_false {α : Type} {p : α → Bool} {l : List α}
    (h : ∀ c ∈ l, p c = false) : l.countP p = 0 := by
  rw [List.countP_eq_zero]
  intro a ha
  simp [h a ha]

/-- The bind loop issues no `sqlite3_finalize` call. -/
theorem bindLoop_countP_finalize (e : Engine) (stmt s : Nat) (params : List JSVal)
    (i : Nat) (m : HostMem) :
    (SQLiteDatabase.bindLoop e stmt params i m).2.2.countP (isFinalizeOf s) = 0 := by
  apply countP_zero_of_all_false
  intro c hc
  rcases bindLoop_trace_mem e stmt params i m c hc with
    ⟨q, s2, rfl⟩ | ⟨idx, v, rfl⟩ | ⟨idx, x, rfl⟩ | ⟨idx, q, rfl⟩ <;> simp [isFinalizeOf]

/-- The bind loop never reads a column type tag. -/
theorem bindLoop_countP_columnType (e : Engine) (stmt : Nat) (params : List JSVal)
    (i : Nat) (m : HostMem) :
    (SQLiteDatabase.bindLoop e stmt params i m).2.2.countP isColumnTypeCall = 0 := by
  apply countP_zero_of_all_false
  intro c hc
  rcases bindLoop_trace_mem e stmt params i m c hc with
    ⟨q, s2, rfl⟩ | ⟨idx, v, rfl⟩ | ⟨idx, x, rfl⟩ | ⟨idx, q, rfl⟩ <;> simp [isColumnTypeCall]

/-- The bind loop never calls the 64-bit integer bind entry point. -/
theorem bindLoop_countP_bindInt64 (e : Engine) (stmt : Nat) (params : List JSVal)
    (i : Nat) (m : HostMem) :
    (SQLiteDatabase.bindLoop e stmt params i m).2.2.countP isBindInt64Call = 0 := by
  apply countP_zero_of_all_false
  intro c hc
  rcases bindLoop_trace_mem e stmt params i m c hc with
    ⟨q, s2, rfl⟩ | ⟨idx, v, rfl⟩ | ⟨idx, x, rfl⟩ | ⟨idx, q, rfl⟩ <;> simp [isBindInt64Call]

/-- The step loop issues no `sqlite3_finalize` call. -/
theorem stepLoop_countP_finalize (e : Engine) (db stmt cc : Nat) (cols : List String)
    (codes : List Int) (r : Nat) (acc : List Row) (s : Nat) :
    (SQLiteDatabase.stepLoop e db stmt cc cols codes r acc).2.countP (isFinalizeOf s)
      = 0 := by
  apply countP_zero_of_all_false
  intro c hc
  rcases stepLoop_trace_mem e db stmt cc cols codes r acc c hc with
    rfl | ⟨col, rfl⟩ | rfl <;> simp [isFinalizeOf]

/-- The step loop never reads a column type tag. -/
theorem stepLoop_countP_columnType (e : Engine) (db stmt cc : Nat) (cols : List String)
    (codes : List Int) (r : Nat) (acc : List Row) :
    (SQLiteDatabase.stepLoop e db stmt cc cols codes r acc).2.countP isColumnTypeCall
      = 0 := by
  apply countP_zero_of_all_false
  intro c hc
  rcases stepLoop_trace_mem e db stmt cc cols codes r acc c hc with
    rfl | ⟨col, rfl⟩ | rfl <;> simp [isColumnTypeCall]

/-- The column-metadata calls issued between bind and step contain no
`sqlite3_finalize` and no type-tag read. -/
theorem metaTrace_countP (stmt cc : Nat) (p : EngineCall → Bool)
    (h1 : p (EngineCall.sqlite3_column_count stmt) = false)
    (h2 : ∀ i, p (EngineCall.sqlite3_column_name stmt i) = false) :
    ((EngineCall.sqlite3_column_count stmt ::
      (List.range cc).map (fun i => EngineCall.sqlite3_column_name stmt i)).countP p)
      = 0 := by
  apply countP_zero_of_all_false
  intro c hc
  rcases List.mem_cons.mp hc with rfl | hc2
  · exact h1
  · rcases List.mem_map.mp hc2 with ⟨i, _, rfl⟩
    exact h2 i

/-- The inner prepared-statement block finalizes its statement exactly
once, on every control path (bind failure, step failure, success). -/
theorem runPrepared_finalize_once (e : Engine) (db stmt : Nat) (params : List JSVal)
    (m : HostMem) :
    (SQLiteDatabase.runPrepared e db stmt params m).2.2.countP (isFinalizeOf stmt)
      = 1 := by
  unfold SQLiteDatabase.runPrepared
  simp only [SQLiteDatabase.bindParameters]
  cases hbp : (SQLiteDatabase.bindLoop e stmt params 0 m).1 with
  | error msg =>
    simp only [List.countP_append]
    rw [bindLoop_countP_finalize]
    simp [isFinalizeOf, List.countP_cons]
  | ok u =>
    simp only [List.countP_append]
    rw [bindLoop_countP_finalize, stepLoop_countP_finalize,
      metaTrace_countP stmt (e.columnCount stmt) (isFinalizeOf stmt) (by simp [isFinalizeOf])
        (by intro i; simp [isFinalizeOf])]
    simp [isFinalizeOf, List.countP_cons]

/-- When `query` returns rows, they are exactly the decoded rows of
the engine's leading run of `SQLITE_ROW` step answers, decoded with
the statement's cached column names and column count. -/
theorem query_ok_rows (e : Engine) (db : Nat) (sql : String) (params : List JSVal)
    (m : HostMem) (rows : List Row)
    (h : (SQLiteDatabase.query e db false sql params m).1 = .ok rows) :
    rows = (List.range (rowsProduced e.stepCodes)).map
      (fun j => SQLiteDatabase.decodeRow e (SQLiteDatabase.queryCols e (e.stmtOf sql))
        (e.columnCount (e.stmtOf sql)) j) := by
  by_cases hprep : e.prepareStatus sql = SQLITE_OK
  · by_cases hstmt : e.stmtOf sql = 0
    · simp [SQLiteDatabase.query, hprep, hstmt] at h
    · simp only [SQLiteDatabase.query, if_pos hprep, if_neg hstmt, Bool.false_eq_true,
        if_false, SQLiteDatabase.runPrepared, SQLiteDatabase.bindParameters] at h
      cases hbp : (SQLiteDatabase.bindLoop e (e.stmtOf sql) params 0 m.alloc.2.alloc.2).1 with
      | error msg => rw [hbp] at h; simp at h
      | ok u =>
        rw [hbp] at h
        simp only at h
        have h2 := stepLoop_ok_rows e db (e.stmtOf sql) (e.columnCount (e.stmtOf sql))
          (SQLiteDatabase.queryCols e (e.stmtOf sql)) e.stepCodes 0 [] rows h
        simpa using h2
  · simp [SQLiteDatabase.query, hprep] at h

/-- Every cell of a decoded row is a host string or JS null. -/
theorem decodeRow_cells_text_or_null (e : Engine) (cols : List String) (cc r : Nat) :
    ∀ c ∈ SQLiteDatabase.decodeRow e cols cc r, cellTextOrNull c.2 = true := by
  intro c hc
  rcases List.mem_map.mp hc with ⟨col, _, rfl⟩
  simp only [SQLiteDatabase.decodeCell]
  by_cases hp : e.colTextPtr r col = 0 <;> simp [hp, cellTextOrNull]

/-- A decoded cell is JS null exactly when the engine reported a null
text pointer for that row and column. -/
theorem decodeCell_null_iff (e : Engine) (r col : Nat) :
    SQLiteDatabase.decodeCell e r col = JSVal.jsNull ↔ e.colTextPtr r col = 0 := by
  unfold SQLiteDatabase.decodeCell
  by_cases hp : e.colTextPtr r col = 0 <;> simp [hp]

/-- Every cell of every row a successful `query` returns is a host
string or JS null. -/
theorem query_cells_text_or_null (e : Engine) (db : Nat) (sql : String)
    (params : List JSVal) (m : HostMem) (rows : List Row)
    (h : (SQLiteDatabase.query e db false sql params m).1 = .ok rows) :
    ∀ row ∈ rows, ∀ c ∈ row, cellTextOrNull c.2 = true := by
  intro row hrow c hc
  rw [query_ok_rows e db sql params m rows h] at hrow
  rcases List.mem_map.mp hrow with ⟨j, _, rfl⟩
  exact decodeRow_cells_text_or_null e _ _ j c hc

/-- The trace of a `query` call never contains a
`sqlite3_column_type` read. -/
theorem query_countP_columnType (e : Engine) (db : Nat) (sql : String)
    (params : List JSVal) (m : HostMem) :
    (SQLiteDatabase.query e db false sql params m).2.2.countP isColumnTypeCall = 0 := by
  by_cases hprep : e.prepareStatus sql = SQLITE_OK
  · by_cases hstmt : e.stmtOf sql = 0
    · simp [SQLiteDatabase.query, hprep, hstmt, List.countP_append, List.countP_cons,
        isColumnTypeCall]
    · simp only [SQLiteDatabase.query, if_pos hprep, if_neg hstmt, Bool.false_eq_true,
        if_false, SQLiteDatabase.runPrepared, SQLiteDatabase.bindParameters]
      cases hbp : (SQLiteDatabase.bindLoop e (e.stmtOf sql) params 0 m.alloc.2.alloc.2).1 with
      | error msg =>
        simp only [List.countP_append]
        rw [bindLoop_countP_columnType]
        simp [isColumnTypeCall, List.countP_cons]
      | ok u =>
        simp only [List.countP_append]
        rw [bindLoop_countP_columnType, stepLoop_countP_columnType,
          metaTrace_countP (e.stmtOf sql) (e.columnCount (e.stmtOf sql)) isColumnTypeCall
            (by simp [isColumnTypeCall]) (by intro i; simp [isColumnTypeCall])]
        simp [isColumnTypeCall, List.countP_cons]
  · simp [SQLiteDatabase.query, hprep, SQLiteDatabase.getErrorMessage,
      List.countP_append, List.countP_cons, isColumnTypeCall]

/-- C1: the claim says every allocation obtained during an operation is
released before the operation returns, on every control path, so the
allocation count returns to its pre-operation baseline.  The code
violates this: `bindParameters` allocates a buffer for every string
parameter and never frees it (the source's own comment at lines
164-165 admits the leak).  Starting from an empty allocator, a
successful one-string-parameter `query` ends with that buffer (pointer
3) still live, one above the baseline. -/
theorem query_leaks_string_parameter_buffer :
    mem0.live = [] ∧
    (SQLiteDatabase.query engRun 7 false "SELECT ?" [JSVal.jsStr "a"] mem0).1
      = .ok [[("c", JSVal.jsStr "7")]] ∧
    (SQLiteDatabase.query engRun 7 false "SELECT ?" [JSVal.jsStr "a"] mem0).2.1.live
      = [3] :=
  ⟨rfl, by rfl, by decide⟩

/-- C2 counterexample: the claim says each column value is decoded by
first reading the engine-reported runtime type tag and dispatching on
it, so the decoded value carries the engine's runtime type.  On an
engine that reports runtime type `SQLITE_INTEGER` for the single value
of the single row, `query` still returns a host string (tag
`SQLITE_TEXT`, not the engine's `SQLITE_INTEGER`), and its trace
contains no `sqlite3_column_type` call at all. -/
theorem query_ignores_runtime_type_tag_cex :
    (SQLiteDatabase.query engRun 7 false "SELECT 1" [] mem0).1
      = .ok [[("c", JSVal.jsStr "7")]] ∧
    engRun.columnType 0 0 = SQLITE_INTEGER ∧
    jsTag (JSVal.jsStr "7") ≠ SQLITE_INTEGER ∧
    (SQLiteDatabase.query engRun 7 false "SELECT 1" [] mem0).2.2.countP isColumnTypeCall
      = 0 :=
  ⟨by rfl, rfl, by decide, by decide⟩

/-- C2 (amended): for every engine behavior, `query` never issues a
`sqlite3_column_type` read, and every value it decodes is produced by
the text accessor alone: a host string, or JS null for a null
pointer. -/
theorem query_decodes_by_text_accessor_only (e : Engine) (db : Nat) (sql : String)
    (params : List JSVal) (m : HostMem) (rows : List Row)
    (h : (SQLiteDatabase.query e db false sql params m).1 = .ok rows) :
    ((SQLiteDatabase.query e db false sql params m).2.2.countP isColumnTypeCall = 0) ∧
    (∀ row ∈ rows, ∀ c ∈ row, cellTextOrNull c.2 = true) :=
  ⟨query_countP_columnType e db sql params m,
    query_cells_text_or_null e db sql params m rows h⟩

/-- C2 witness: the amended claim evaluated on the concrete engine and
the row it yields. -/
theorem query_decodes_by_text_accessor_only_witness :
    ((SQLiteDatabase.query engRun 7 false "SELECT 1" [] mem0).2.2.countP isColumnTypeCall
      = 0) ∧
    cellTextOrNull (JSVal.jsStr "7") = true := by
  have h := query_decodes_by_text_accessor_only engRun 7 "SELECT 1" [] mem0
    [[("c", JSVal.jsStr "7")]] (by rfl)
  exact ⟨h.1, h.2 [("c", JSVal.jsStr "7")] (by simp) ("c", JSVal.jsStr "7") (by simp)⟩

/-- C3 counterexample: the claim says every Value tag round-trips
through one bind/step cycle, including blobs.  A blob parameter cannot
even be bound: `bindParameters` throws `Unsupported parameter type`
for it, so `query` with an (empty) blob parameter fails instead of
round-tripping. -/
theorem blob_parameter_cannot_roundtrip_cex :
    (SQLiteDatabase.query engRun 7 false "SELECT ?" [JSVal.jsBlob []] mem0).1
      = .error "Unsupported parameter type: object" := by rfl

/-- C3 (amended): the round-trip property fails for the Blob, Integer
and Real tags and can hold at most for Null and Text.  Binding a Blob
value (any byte list, including the empty blob) throws the
unsupported-parameter error before any bind call; and every value a
successful `query` returns is a host string or the host null — never
Integer-, Real- or Blob-tagged — so a bound Integer, Real or Blob
value is never read back equal to itself, under every engine
behavior. -/
theorem roundtrip_degenerates_to_text (e : Engine) (stmt db : Nat) (bs : List Nat)
    (sql : String) (params : List JSVal) (m m2 : HostMem) (rows : List Row)
    (h : (SQLiteDatabase.query e db false sql params m).1 = .ok rows) :
    ((SQLiteDatabase.bindParameters e stmt [JSVal.jsBlob bs] m2).1
        = .error "Unsupported parameter type: object") ∧
    (∀ row ∈ rows, ∀ c ∈ row,
      (∀ n : Int, c.2 ≠ JSVal.jsInt n) ∧
      (∀ x : Int, c.2 ≠ JSVal.jsReal x) ∧
      (∀ bs2 : List Nat, c.2 ≠ JSVal.jsBlob bs2) ∧
      cellTextOrNull c.2 = true) := by
  refine ⟨by rfl, ?_⟩
  intro row hrow c hc
  have hcell := query_cells_text_or_null e db sql params m rows h row hrow c hc
  refine ⟨fun n hn => ?_, fun x hx => ?_, fun bs2 hb => ?_, hcell⟩
  · rw [hn] at hcell
    simp [cellTextOrNull] at hcell
  · rw [hx] at hcell
    simp [cellTextOrNull] at hcell
  · rw [hb] at hcell
    simp [cellTextOrNull] at hcell

/-- C3 witness: the amended claim evaluated on the concrete engine:
the empty blob is rejected, and the one decoded value (the string "7")
is not the Integer 7 the engine stored — nor any Real or Blob. -/
theorem roundtrip_degenerates_to_text_witness :
    ((SQLiteDatabase.bindParameters engRun 9 [JSVal.jsBlob []] mem0).1
        = .error "Unsupported parameter type: object") ∧
    JSVal.jsStr "7" ≠ JSVal.jsInt 7 ∧
    JSVal.jsStr "7" ≠ JSVal.jsReal 7 ∧
    JSVal.jsStr "7" ≠ JSVal.jsBlob [] ∧
    cellTextOrNull (JSVal.jsStr "7") = true := by
  have h := roundtrip_degenerates_to_text engRun 9 7 [] "SELECT 1" [] mem0 mem0
    [[("c", JSVal.jsStr "7")]] (by rfl)
  have h2 := h.2 [("c", JSVal.jsStr "7")] (by simp) ("c", JSVal.jsStr "7") (by simp)
  exact ⟨h.1, h2.1 7, h2.2.1 7, h2.2.2.1 [], h2.2.2.2⟩

/-- C4: for every engine behavior, every parameter list and every
allocator state, once `query`'s prepare succeeds with a non-null
statement handle, the trace of the call contains exactly one
`sqlite3_finalize` of that handle — on the bind-failure path, the
step-failure path and the success path alike. -/
theorem query_finalizes_statement_exactly_once (e : Engine) (db : Nat) (sql : String)
    (params : List JSVal) (m : HostMem)
    (hprep : e.prepareStatus sql = SQLITE_OK) (hstmt : e.stmtOf sql ≠ 0) :
    (SQLiteDatabase.query e db false sql params m).2.2.countP
      (isFinalizeOf (e.stmtOf sql)) = 1 := by
  simp only [SQLiteDatabase.query, if_pos hprep, if_neg hstmt, Bool.false_eq_true,
    if_false, List.countP_append]
  rw [runPrepared_finalize_once]
  simp [isFinalizeOf, List.countP_cons]

/-- C4 witness: finalize-exactly-once evaluated on a bind-failure path
(the blob parameter makes `bindParameters` throw after prepare). -/
theorem query_finalizes_statement_exactly_once_witness :
    (SQLiteDatabase.query engRun 7 false "SELECT ?" [JSVal.jsBlob []] mem0).2.2.countP
      (isFinalizeOf (engRun.stmtOf "SELECT ?")) = 1 :=
  query_finalizes_statement_exactly_once engRun 7 "SELECT ?" [JSVal.jsBlob []] mem0
    (by rfl) (by decide)

/-- C10: every value in every row a successful `query` returns is a
host string or the host null, and a value is null exactly when the
engine returned a null pointer for that column's text
representation. -/
theorem query_row_values_text_or_null (e : Engine) (db : Nat) (sql : String)
    (params : List JSVal) (m : HostMem) (rows : List Row)
    (h : (SQLiteDatabase.query e db false sql params m).1 = .ok rows) :
    (∀ row ∈ rows, ∀ c ∈ row, cellTextOrNull c.2 = true) ∧
    (∀ k, k < rows.length → ∀ col, col < e.columnCount (e.stmtOf sql) →
      (((rows.getD k []).getD col ("", JSVal.jsNull)).2 = JSVal.jsNull
        ↔ e.colTextPtr k col = 0)) := by
  constructor
  · exact query_cells_text_or_null e db sql params m rows h
  · intro k hk col hcol
    have hr := query_ok_rows e db sql params m rows h
    have hlen : rows.length = rowsProduced e.stepCodes := by
      rw [hr]
      simp
    have hrowk : rows.getD k []
        = SQLiteDatabase.decodeRow e (SQLiteDatabase.queryCols e (e.stmtOf sql))
          (e.columnCount (e.stmtOf sql)) k := by
      rw [hr]
      exact getD_map_range _ _ _ _ (by omega)
    rw [hrowk]
    simp only [SQLiteDatabase.decodeRow]
    rw [getD_map_range _ _ _ _ hcol]
    exact decodeCell_null_iff e k col

/-- C10 witness: the property evaluated at the concrete engine's one
row and one column. -/
theorem query_row_values_text_or_null_witness :
    cellTextOrNull (JSVal.jsStr "7") = true ∧
    ((([[("c", JSVal.jsStr "7")]].getD 0 []).getD 0 ("", JSVal.jsNull)).2 = JSVal.jsNull
      ↔ engRun.colTextPtr 0 0 = 0) := by
  have h := query_row_values_text_or_null engRun 7 "SELECT 1" [] mem0
    [[("c", JSVal.jsStr "7")]] (by rfl)
  exact ⟨h.1 [("c", JSVal.jsStr "7")] (by simp) ("c", JSVal.jsStr "7") (by simp),
    h.2 0 (by decide) 0 (by decide)⟩

/-- C5 counterexample: the claim says binding at an index beyond the
statement's parameter count fails with a `BindFailed` error.  On an
engine whose statement has one parameter slot and which rejects the
bind at index 2 (status `SQLITE_RANGE`), `bindParameters` nevertheless
succeeds, because the source never inspects any bind call's return
status. -/
theorem out_of_range_bind_not_detected_cex :
    engRun.paramCount 9 = 1 ∧
    engRun.bindStatus 2 ≠ SQLITE_OK ∧
    (SQLiteDatabase.bindParameters engRun 9 [JSVal.jsInt 1, JSVal.jsInt 2] mem0).1
      = .ok () ∧
    (SQLiteDatabase.bindParameters engRun 9 [JSVal.jsInt 1, JSVal.jsInt 2] mem0).2.2
      = [EngineCall.sqlite3_bind_int 9 1 1, EngineCall.sqlite3_bind_int 9 2 2] :=
  ⟨rfl, by decide, by rfl, by decide⟩

/-- C5 (amended): bind return codes are never inspected, so binding
with supported values always succeeds (an out-of-range index is
silently swallowed, never surfaced as an error); and the loop issues
bind calls only for indices 1 .. length of the parameter list, so
parameter slots beyond it are never touched and stay at the engine's
documented NULL default. -/
theorem bind_ignores_status_and_skips_missing (e : Engine) (stmt : Nat)
    (params : List JSVal) (m : HostMem)
    (hsupp : ∀ p ∈ params, supportedParam p = true) :
    ((SQLiteDatabase.bindParameters e stmt params m).1 = .ok ()) ∧
    (∀ c ∈ (SQLiteDatabase.bindParameters e stmt params m).2.2, ∀ j,
      bindIdx c = some j → 1 ≤ j ∧ j ≤ params.length) := by
  constructor
  · exact bindLoop_ok_of_supported e stmt params 0 m hsupp
  · intro c hc j hj
    have h := bindLoop_idx_range e stmt params 0 m c j hc hj
    omega

/-- C5 witness: the amended claim evaluated at one supported parameter
and the single bind call it issues. -/
theorem bind_ignores_status_and_skips_missing_witness :
    ((SQLiteDatabase.bindParameters engRun 9 [JSVal.jsInt 1] mem0).1 = .ok ()) ∧
    (1 ≤ 1 ∧ 1 ≤ [JSVal.jsInt 1].length) := by
  have h := bind_ignores_status_and_skips_missing engRun 9 [JSVal.jsInt 1] mem0 (by decide)
  exact ⟨h.1, h.2 (EngineCall.sqlite3_bind_int 9 1 (toInt32 1)) (by decide) 1 (by decide)⟩

/-- C6 counterexample: the claim says every operation on a closed
Connection, including `getChanges`, fails with a use-after-close error
instead of reaching the engine.  On a closed handle, `getChanges`
performs the `sqlite3_changes` engine call and returns its value
normally — the source has no closed check in that method. -/
theorem getChanges_reaches_engine_after_close_cex :
    SQLiteDatabase.getChanges engRun 7 true = (2, [EngineCall.sqlite3_changes 7]) := rfl

/-- C6 (amended): closing an already-closed Connection is a no-op that
raises no error and issues no engine call, and after close `exec`,
`query`, `setKey` and `rekey` fail with the closed-database error
before any engine call; but `getChanges` and the error-message lookup
perform no closed check and still call the engine. -/
theorem close_idempotent_and_partial_checks (e : Engine) (db : Nat) (sql k2 : String)
    (params : List JSVal) (m : HostMem) :
    SQLiteDatabase.close db true = (true, []) ∧
    SQLiteDatabase.exec e db true sql m = (.error "Database is closed", m, []) ∧
    SQLiteDatabase.query e db true sql params m = (.error "Database is closed", m, []) ∧
    SQLiteDatabase.setKey e db true k2 m = (.error "Database is closed", m, []) ∧
    SQLiteDatabase.rekey e db true k2 m = (.error "Database is closed", m, []) ∧
    SQLiteDatabase.getChanges e db true = (e.changesCount, [EngineCall.sqlite3_changes db]) ∧
    (SQLiteDatabase.getErrorMessage e db true).2 = [EngineCall.sqlite3_errmsg db] :=
  ⟨rfl, rfl, rfl, rfl, rfl, rfl, rfl⟩

/-- C7 counterexample: the claim says that whenever a key argument is
supplied to `open`, the keying protocol is issued before the
Connection is returned.  Supplying the empty string as the key is a
supplied key argument, but it is falsy in JavaScript, so `open`
returns the Connection with no `sqlite3_exec` (hence no keying
pragma) ever issued. -/
theorem open_with_empty_key_skips_keying_cex :
    (SQLiteAPI.openDb engRun ":memory:" (some "") mem0).1 = .ok (7, false) ∧
    (SQLiteAPI.openDb engRun ":memory:" (some "") mem0).2.2.countP isExecCall = 0 :=
  ⟨by rfl, by decide⟩

/-- C7 (amended): for every non-empty key, whenever `open` returns a
Connection the keying pragma was executed (successfully) during the
`open` call, before the Connection was handed to the caller; an
empty-string key is falsy and skips keying. -/
theorem open_with_nonempty_key_keys_before_return (e : Engine) (fn k : String)
    (m : HostMem) (db : Nat) (hk : k ≠ "")
    (h : (SQLiteAPI.openDb e fn (some k) m).1 = .ok (db, false)) :
    (EngineCall.sqlite3_exec db (m.nextPtr + 2) (keyPragma k)
        ∈ (SQLiteAPI.openDb e fn (some k) m).2.2) ∧
    e.execStatus (keyPragma k) = SQLITE_OK := by
  have htr : SQLiteAPI.jsTruthy (some k) = true := by
    simp [SQLiteAPI.jsTruthy, hk]
  by_cases hO : e.openStatus = SQLITE_OK
  · by_cases hD : e.dbHandle = 0
    · simp [SQLiteAPI.openDb, hO, hD] at h
    · by_cases hE : e.execStatus (keyPragma k) = SQLITE_OK
      · have hdb : e.dbHandle = db := by
          simp [SQLiteAPI.openDb, hO, hD, htr, SQLiteDatabase.setKey,
            SQLiteDatabase.exec, hE, HostMem.alloc] at h
          exact h
        subst hdb
        refine ⟨?_, hE⟩
        simp [SQLiteAPI.openDb, hO, hD, htr, SQLiteDatabase.setKey,
          SQLiteDatabase.exec, hE, HostMem.alloc]
      · exfalso
        simp [SQLiteAPI.openDb, hO, hD, htr, SQLiteDatabase.setKey,
          SQLiteDatabase.exec, hE, HostMem.alloc] at h
  · simp [SQLiteAPI.openDb, hO] at h

/-- C7 witness: opening with the non-empty key "pw" issues the keying
pragma, and the keying exec succeeded. -/
theorem open_with_nonempty_key_keys_before_return_witness :
    (EngineCall.sqlite3_exec 7 3 (keyPragma "pw")
        ∈ (SQLiteAPI.openDb engRun ":memory:" (some "pw") mem0).2.2) ∧
    engRun.execStatus (keyPragma "pw") = SQLITE_OK :=
  open_with_nonempty_key_keys_before_return engRun ":memory:" "pw" mem0 7
    (by decide) (by rfl)

/-- C8 counterexample: the claim says every text bind is issued with
the engine's transient-copy semantics.  The destructor argument the
source passes is `0` (`SQLITE_STATIC`), not `SQLITE_TRANSIENT`
(`-1`): the engine is told *not* to make its own copy. -/
theorem text_bind_destructor_static_cex :
    (SQLiteDatabase.bindParameters engRun 9 [JSVal.jsStr "a"] mem0).2.2
      = [EngineCall.allocUTF8 1 "a", EngineCall.sqlite3_bind_text 9 1 1 (-1) 0] ∧
    (0 : Int) ≠ SQLITE_TRANSIENT :=
  ⟨by decide, by decide⟩

/-- C8 (amended): every text bind is issued with length `-1` and
destructor `0` (static semantics), and the binding compensates by
never freeing the text buffer: its pointer is still live in the
allocator state `bindParameters` returns, so the engine-held pointer
stays valid. -/
theorem text_binds_static_and_buffer_retained (e : Engine) (stmt : Nat)
    (params : List JSVal) (m : HostMem) (s idx ptr : Nat) (len d : Int)
    (h : EngineCall.sqlite3_bind_text s idx ptr len d
        ∈ (SQLiteDatabase.bindParameters e stmt params m).2.2) :
    d = 0 ∧ len = -1 ∧ ptr ∈ (SQLiteDatabase.bindParameters e stmt params m).2.1.live := by
  have hshape := bindLoop_trace_mem e stmt params 0 m _ h
  rcases hshape with ⟨q, s2, heq⟩ | ⟨idx2, v, heq⟩ | ⟨idx2, x, heq⟩ | ⟨idx2, q, heq⟩
  · exact absurd heq (by simp)
  · exact absurd heq (by simp)
  · exact absurd heq (by simp)
  · injection heq with h1 h2 h3 h4 h5
    exact ⟨h5, h4, bindLoop_text_ptr_live e stmt params 0 m s idx ptr len d h⟩

/-- C8 witness: the single text bind of one string parameter has
destructor 0, length -1, and its buffer (pointer 1) is still live. -/
theorem text_binds_static_and_buffer_retained_witness :
    (0 : Int) = 0 ∧ (-1 : Int) = -1 ∧
    (1 : Nat) ∈ (SQLiteDatabase.bindParameters engRun 9 [JSVal.jsStr "a"] mem0).2.1.live :=
  text_binds_static_and_buffer_retained engRun 9 [JSVal.jsStr "a"] mem0 9 1 1 (-1) 0
    (by decide)

/-- C9 counterexample: the claim says integer parameters are passed
through the 64-bit integer bind entry point so every 64-bit signed
value binds without truncation.  The source calls `sqlite3_bind_int`
(the 32-bit entry point): binding the integer 2^31 issues a
`sqlite3_bind_int` call carrying -2^31 (wrapped at the 32-bit ABI
boundary), and no `sqlite3_bind_int64` call is ever issued. -/
theorem int_bind_32bit_truncates_cex :
    (SQLiteDatabase.bindParameters engRun 9 [JSVal.jsInt 2147483648] mem0).2.2
      = [EngineCall.sqlite3_bind_int 9 1 (-2147483648)] ∧
    ((SQLiteDatabase.bindParameters engRun 9 [JSVal.jsInt 2147483648] mem0).2.2.countP
        isBindInt64Call = 0) ∧
    (-2147483648 : Int) ≠ 2147483648 :=
  ⟨by decide, by decide, by decide⟩

/-- C9 (amended): every integer parameter at JS position `k` is bound
through the 32-bit `sqlite3_bind_int` entry point with the value
wrapped into 32-bit signed range; no 64-bit bind call is ever issued;
values already inside the 32-bit signed range bind unchanged. -/
theorem int_params_bind_via_32bit_entry (e : Engine) (stmt : Nat) (params : List JSVal)
    (m : HostMem) (k : Nat) (n : Int)
    (hok : (SQLiteDatabase.bindParameters e stmt params m).1 = .ok ())
    (hget : params.getD k JSVal.jsNull = JSVal.jsInt n) (hlt : k < params.length) :
    (EngineCall.sqlite3_bind_int stmt (k + 1) (toInt32 n)
        ∈ (SQLiteDatabase.bindParameters e stmt params m).2.2) ∧
    ((SQLiteDatabase.bindParameters e stmt params m).2.2.countP isBindInt64Call = 0) ∧
    (-2147483648 ≤ n → n < 2147483648 → toInt32 n = n) := by
  refine ⟨?_, bindLoop_countP_bindInt64 e stmt params 0 m,
    fun h1 h2 => toInt32_eq_self n h1 h2⟩
  have h := bindLoop_int_call_mem e stmt params 0 m k n hok hget hlt
  simpa using h

/-- C9 witness: one integer parameter (5) binds through the 32-bit
entry point, unchanged since it is in range, and no 64-bit call
appears. -/
theorem int_params_bind_via_32bit_entry_witness :
    (EngineCall.sqlite3_bind_int 9 1 (toInt32 5)
        ∈ (SQLiteDatabase.bindParameters engRun 9 [JSVal.jsInt 5] mem0).2.2) ∧
    ((SQLiteDatabase.bindParameters engRun 9 [JSVal.jsInt 5] mem0).2.2.countP
        isBindInt64Call = 0) ∧
    toInt32 5 = 5 := by
  have h := int_params_bind_via_32bit_entry engRun 9 [JSVal.jsInt 5] mem0 0 5
    (by rfl) (by rfl) (by decide)
  exact ⟨h.1, h.2.1, h.2.2 (by decide) (by decide)⟩
